import Mathlib

/-!
A verification development for the NS-3 RPL DAO attack analysis driver
(src/output.py).  The script sweeps an external discrete-event simulator over
three experiment designs (baseline, attack-frequency sweep, threshold sweep),
parses the CSV artifacts each run writes, accumulates the per-run records into
datasets, derives a summary, and renders charts.

The embedding below follows the source function by function.  The external
world (the subprocess call plus the files it writes) is modelled as an oracle
from the command line actually issued to an optional set of result artifacts;
numeric cell values are idealized as rationals; a cell pandas cannot read as a
number is kept as the string it holds.
-/

/-- A Python scalar as it appears in a parsed CSV cell: pandas stores a numeric
cell as a float (idealized here as a rational) and any other cell as the string
it holds. -/
inductive PyVal where
  | num (q : ℚ)
  | str (s : String)
deriving DecidableEq

/-- Python multiplication of a cell value by a natural literal, as in the
expression `delay[...].values[0] * 1000` of run_simulation: a number multiplies,
a string replicates (Python string repetition); neither raises. -/
def pyMulNat : PyVal → ℕ → PyVal
  | PyVal.num q, n => PyVal.num (q * n)
  | PyVal.str s, n => PyVal.str (String.join (List.replicate n s))

/-- A tabular result artifact as pandas read_csv sees it: a header row and the
data rows below it. -/
structure Csv where
  header : List String
  rows : List (List PyVal)
deriving DecidableEq

/-- The three result files one simulator run writes (run1_pdr.csv,
run1_delay.csv, run1_overhead.csv); `none` models a missing file. -/
structure Artifacts where
  pdrFile : Option Csv
  delayFile : Option Csv
  overheadFile : Option Csv
deriving DecidableEq

/-- pd.read_csv as used in run_simulation: raises (here: `none`) on a missing
file (FileNotFoundError) or a file with no header at all (EmptyDataError);
otherwise returns the frame unchanged. -/
def readCsv : Option Csv → Option Csv
  | none => none
  | some c => if c.header.isEmpty then none else some c

/-- `frame[col].values[0]`: locate the column in the header (KeyError when
absent, here `none`), take the first data row (IndexError on an empty frame,
here `none`), and read that cell. -/
def firstVal (c : Csv) (col : String) : Option PyVal :=
  match c.header.findIdx? (fun h => h == col) with
  | none => none
  | some i =>
    match c.rows.head? with
    | none => none
    | some row => row[i]?

/-- The dictionary run_simulation returns on success: the artifact cells copied
verbatim, except that delay is multiplied by 1000 (seconds to milliseconds). -/
structure RawRecord where
  pdr : PyVal
  tx : PyVal
  rx : PyVal
  delay_ms : PyVal
  ctrl_tx : PyVal
  ctrl_rx : PyVal
  ctrl_dropped : PyVal
deriving DecidableEq

/-- The try block of run_simulation (src/output.py lines 52-68): read the three
artifacts, extract the first value of each required column, convert delay to
milliseconds; any exception collapses to `none` (the except branch returns
None after printing). -/
def parseResults (a : Artifacts) : Option RawRecord :=
  (readCsv a.pdrFile).bind fun pdrC =>
  (readCsv a.delayFile).bind fun delayC =>
  (readCsv a.overheadFile).bind fun ovC =>
  (firstVal pdrC "pdr").bind fun p =>
  (firstVal pdrC "tx").bind fun t =>
  (firstVal pdrC "rx").bind fun x =>
  (firstVal delayC "avg_delay_s").bind fun d =>
  (firstVal ovC "control_tx").bind fun ct =>
  (firstVal ovC "control_rx").bind fun cr =>
  (firstVal ovC "control_dropped").bind fun cd =>
  some { pdr := p, tx := t, rx := x, delay_ms := pyMulNat d 1000,
         ctrl_tx := ct, ctrl_rx := cr, ctrl_dropped := cd }

/-- The raw value of the delay artifact as the parser first sees it, before the
unit conversion: the first entry of the avg_delay_s column. -/
def rawDelayValue (a : Artifacts) : Option PyVal :=
  match readCsv a.delayFile with
  | none => none
  | some c => firstVal c "avg_delay_s"

/-- One command-line argument of the external simulator invocation, tagged by
the option name run_simulation writes into the command string. -/
inductive Arg where
  | attackFlag (b : Bool)
  | attackerPps (n : ℕ)
  | attackerPkt (n : ℕ)
  | threshold (n : ℕ)
  | windowSec (q : ℚ)
  | nNodes (n : ℕ)
  | area (n : ℕ)
  | rateKbps (n : ℕ)
  | simTime (n : ℕ)
deriving DecidableEq

/-- The keyword parameters of run_simulation, with the default values the
Python signature declares (attacker_pps=800, threshold=20, n_nodes=25,
window=1.0, sim_time=120). -/
structure SimArgs where
  attack : Bool
  attacker_pps : ℕ := 800
  threshold : ℕ := 20
  n_nodes : ℕ := 25
  window : ℚ := 1
  sim_time : ℕ := 120
deriving DecidableEq

/-- The command string run_simulation builds (src/output.py lines 32-44), as the
ordered list of simulator arguments it contains.  The attack branch forwards
every parameter (with the literals attackerPkt=120, area=60, rateKbps=16); the
no-attack branch forwards only the attack flag, nNodes, area, rateKbps and
simTime. -/
def buildCmd (a : SimArgs) : List Arg :=
  if a.attack then
    [Arg.attackFlag true, Arg.attackerPps a.attacker_pps, Arg.attackerPkt 120,
     Arg.threshold a.threshold, Arg.windowSec a.window, Arg.nNodes a.n_nodes,
     Arg.area 60, Arg.rateKbps 16, Arg.simTime a.sim_time]
  else
    [Arg.attackFlag false, Arg.nNodes a.n_nodes, Arg.area 60, Arg.rateKbps 16,
     Arg.simTime a.sim_time]

/-- Whether an argument is one of the four attack-only parameters (attacker
rate, attacker packet count, mitigation threshold, detection window). -/
def isAttackOnlyArg : Arg → Bool
  | Arg.attackerPps _ => true
  | Arg.attackerPkt _ => true
  | Arg.threshold _ => true
  | Arg.windowSec _ => true
  | _ => false

/-- run_simulation over an external-world oracle `env`: `env cmd` is `none`
when the subprocess exits nonzero (run_simulation then returns None at line
50), and otherwise the result artifacts the run wrote, which the try block
parses. -/
def run_simulation (env : List Arg → Option Artifacts) (a : SimArgs) :
    Option RawRecord :=
  match env (buildCmd a) with
  | none => none
  | some fs => parseResults fs

/-- The scenario labels the collectors attach: RPL is the no-attack baseline,
InsecRPL the attack-only scenario, SecRPL the attack-with-mitigation
scenario. -/
inductive Label where
  | RPL
  | InsecRPL
  | SecRPL
deriving DecidableEq

/-- A row of the baseline dataset: the run_simulation result dictionary (of
payload type `ρ`) with the scenario label assigned into it. -/
structure BaseRec (ρ : Type) where
  vals : ρ
  scenario : Label
deriving DecidableEq

/-- A row of the frequency-sweep dataset: the result dictionary, the scenario
label and the attack_pps value assigned into it. -/
structure FreqRec (ρ : Type) where
  vals : ρ
  scenario : Label
  attack_pps : ℕ
deriving DecidableEq

/-- A row of the threshold-sweep dataset: the result dictionary, the scenario
label and the threshold value assigned into it. -/
structure ThreshRec (ρ : Type) where
  vals : ρ
  scenario : Label
  threshold : ℕ
deriving DecidableEq

/-- collect_baseline_data (src/output.py lines 70-102) over a scenario-runner
oracle `sim` (the script passes run_simulation): three fixed combinations in
order, each appending one labelled record when the run succeeds and nothing
when it fails.  The collector is generic in the payload exactly as the Python
code is agnostic to the dictionary contents. -/
def collect_baseline_data {ρ : Type} (sim : SimArgs → Option ρ) :
    List (BaseRec ρ) :=
  (match sim { attack := false } with
   | some r => [{ vals := r, scenario := Label.RPL }]
   | none => [])
  ++ (match sim { attack := true, threshold := 1000000000 } with
      | some r => [{ vals := r, scenario := Label.InsecRPL }]
      | none => [])
  ++ (match sim { attack := true, threshold := 20 } with
      | some r => [{ vals := r, scenario := Label.SecRPL }]
      | none => [])

/-- The fixed ordered attack frequencies of the frequency sweep. -/
def frequencies : List ℕ := [200, 400, 600, 800, 1000]

/-- The body of the frequency-sweep loop for one rate: append the attack-only
record (threshold 1000000000), then the mitigated record (threshold 20), each
only when that run succeeds. -/
def freqStep {ρ : Type} (sim : SimArgs → Option ρ) (acc : List (FreqRec ρ))
    (pps : ℕ) : List (FreqRec ρ) :=
  let acc1 := match sim { attack := true, attacker_pps := pps,
                          threshold := 1000000000 } with
    | some r => acc ++ [{ vals := r, scenario := Label.InsecRPL,
                          attack_pps := pps }]
    | none => acc
  match sim { attack := true, attacker_pps := pps, threshold := 20 } with
  | some r => acc1 ++ [{ vals := r, scenario := Label.SecRPL,
                         attack_pps := pps }]
  | none => acc1

/-- collect_attack_frequency_data (src/output.py lines 104-142): for each rate,
append the attack-only run and then the mitigated run when each succeeds;
after the loop run the no-attack scenario once and, when it succeeds, append a
copy of its record for every rate. -/
def collect_attack_frequency_data {ρ : Type} (sim : SimArgs → Option ρ) :
    List (FreqRec ρ) :=
  let looped := frequencies.foldl (freqStep sim) []
  match sim { attack := false } with
  | some r => looped ++ frequencies.map (fun pps =>
      { vals := r, scenario := Label.RPL, attack_pps := pps })
  | none => looped

/-- The fixed ordered mitigation thresholds of the threshold sweep. -/
def thresholds : List ℕ := [5, 10, 20, 30, 50]

/-- The body of the threshold-sweep loop for one threshold: append the
mitigated record when the run succeeds. -/
def threshStep {ρ : Type} (sim : SimArgs → Option ρ) (acc : List (ThreshRec ρ))
    (t : ℕ) : List (ThreshRec ρ) :=
  match sim { attack := true, attacker_pps := 800, threshold := t } with
  | some r => acc ++ [{ vals := r, scenario := Label.SecRPL, threshold := t }]
  | none => acc

/-- collect_threshold_data (src/output.py lines 144-163): one
attack-with-mitigation run per threshold at attacker_pps 800, appending one
SecRPL record per successful run and skipping a failed run. -/
def collect_threshold_data {ρ : Type} (sim : SimArgs → Option ρ) :
    List (ThreshRec ρ) :=
  thresholds.foldl (threshStep sim) []

/-- The numeric reading of a run dictionary, as the summary and chart code
consume it: every field a number (pandas float columns, idealized as
rationals). -/
structure NumRecord where
  pdr : ℚ
  tx : ℚ
  rx : ℚ
  delay_ms : ℚ
  ctrl_tx : ℚ
  ctrl_rx : ℚ
  ctrl_dropped : ℚ
deriving DecidableEq

/-- The derived quantities the summary block of print_summary_table computes. -/
structure Summary where
  improvement : ℚ
  degradation : ℚ
  blocked : ℚ
deriving DecidableEq

/-- The summary computation of print_summary_table (src/output.py lines
371-385): nothing when the baseline frame is empty; with a non-empty frame,
the key findings are computed exactly when both an InsecRPL and a SecRPL row
are present, from the first row of each:
improvement = (sec_pdr - insec_pdr) / insec_pdr * 100,
degradation = (1 - insec_pdr) * 100, blocked = first SecRPL ctrl_dropped. -/
def summarize (df : List (BaseRec NumRecord)) : Option Summary :=
  if df.isEmpty then none
  else
    match df.find? (fun r => r.scenario == Label.InsecRPL),
          df.find? (fun r => r.scenario == Label.SecRPL) with
    | some insec, some sec =>
      some { improvement := (sec.vals.pdr - insec.vals.pdr) / insec.vals.pdr * 100,
             degradation := (1 - insec.vals.pdr) * 100,
             blocked := sec.vals.ctrl_dropped }
    | _, _ => none

/-- One plotted line of a chart: the scenario it is labelled with and its
points. -/
structure Series where
  scenario : Label
  points : List (ℚ × ℚ)
deriving DecidableEq

/-- One chart of create_research_style_graphs: its figure number, the series
plotted in it, and (figure 4 only) the horizontal baseline reference lines. -/
structure Chart where
  figure : ℕ
  series : List Series
  refLines : List (Label × ℚ) := []
deriving DecidableEq

/-- Stable ascending insertion of an element into a list sorted by a key
(models pandas sort_values on the swept column). -/
def insertAsc {α : Type} (key : α → ℕ) (x : α) : List α → List α
  | [] => [x]
  | y :: ys => if key y ≤ key x then y :: insertAsc key x ys else x :: y :: ys

/-- Ascending sort by a key, as sort_values orders a sweep frame. -/
def sortByKey {α : Type} (key : α → ℕ) : List α → List α
  | [] => []
  | x :: xs => insertAsc key x (sortByKey key xs)

/-- The per-scenario line construction shared by figures 1-3: filter the
frequency frame to the scenario, sort by attack_pps, and plot
(1 / attack_pps, value) for the chosen column; an empty selection draws
nothing for that scenario. -/
def freqSeries (df : List (FreqRec NumRecord)) (value : NumRecord → ℚ) :
    List Series :=
  [Label.RPL, Label.InsecRPL, Label.SecRPL].filterMap (fun sc =>
    let data := sortByKey (fun r => r.attack_pps)
      (df.filter (fun r => r.scenario == sc))
    if data.isEmpty then none
    else some { scenario := sc,
                points := data.map (fun r =>
                  (1 / (r.attack_pps : ℚ), value r.vals)) })

/-- Figures 1-3 (src/output.py lines 191-260): skipped entirely when the
frequency frame is empty, otherwise one chart each for ctrl_rx, pdr and
delay_ms. -/
def freqCharts (freq_df : List (FreqRec NumRecord)) : List Chart :=
  if freq_df.isEmpty then []
  else
    [{ figure := 1, series := freqSeries freq_df (fun v => v.ctrl_rx) },
     { figure := 2, series := freqSeries freq_df (fun v => v.pdr) },
     { figure := 3, series := freqSeries freq_df (fun v => v.delay_ms) }]

/-- The single SecRPL line of figures 4 and 5: the threshold frame sorted by
threshold, plotting (threshold, value). -/
def threshSeries (df : List (ThreshRec NumRecord)) (value : NumRecord → ℚ) :
    Series :=
  { scenario := Label.SecRPL,
    points := (sortByKey (fun r => r.threshold) df).map (fun r =>
      ((r.threshold : ℚ), value r.vals)) }

/-- Figure 4 (src/output.py lines 262-292): skipped when the threshold frame is
empty; otherwise the SecRPL pdr line, and, when the baseline frame is
non-empty, two axhline reference lines read with values[0] from the RPL and
InsecRPL rows of the baseline frame — an access that raises IndexError (the
error value here) when the corresponding label is absent. -/
def fig4Charts (baseline_df : List (BaseRec NumRecord))
    (thresh_df : List (ThreshRec NumRecord)) : Except String (List Chart) :=
  if thresh_df.isEmpty then Except.ok []
  else
    if baseline_df.isEmpty then
      Except.ok [{ figure := 4, series := [threshSeries thresh_df (fun v => v.pdr)] }]
    else
      match (baseline_df.filter (fun r => r.scenario == Label.RPL)).head? with
      | none => Except.error "IndexError"
      | some rplRow =>
        match (baseline_df.filter (fun r => r.scenario == Label.InsecRPL)).head? with
        | none => Except.error "IndexError"
        | some insecRow =>
          Except.ok [{ figure := 4,
                       series := [threshSeries thresh_df (fun v => v.pdr)],
                       refLines := [(Label.RPL, rplRow.vals.pdr),
                                    (Label.InsecRPL, insecRow.vals.pdr)] }]

/-- Figure 5 (src/output.py lines 294-313): skipped when the threshold frame is
empty, otherwise the SecRPL ctrl_rx line. -/
def fig5Charts (thresh_df : List (ThreshRec NumRecord)) : List Chart :=
  if thresh_df.isEmpty then []
  else [{ figure := 5, series := [threshSeries thresh_df (fun v => v.ctrl_rx)] }]

/-- Figure 6 (src/output.py lines 315-363): skipped when the baseline frame is
empty, otherwise three bar panels built from exactly the rows present, one bar
group per row in frame order. -/
def fig6Charts (baseline_df : List (BaseRec NumRecord)) : List Chart :=
  if baseline_df.isEmpty then []
  else [{ figure := 6,
          series := baseline_df.map (fun r =>
            { scenario := r.scenario,
              points := [(0, r.vals.pdr), (1, r.vals.delay_ms),
                         (2, r.vals.ctrl_rx)] }) }]

/-- create_research_style_graphs (src/output.py lines 165-363): the six charts
in order; an IndexError in the figure-4 block propagates (the script catches
nothing there), so no later chart is produced in that case. -/
def chartsOf (baseline_df : List (BaseRec NumRecord))
    (freq_df : List (FreqRec NumRecord))
    (thresh_df : List (ThreshRec NumRecord)) : Except String (List Chart) :=
  match fig4Charts baseline_df thresh_df with
  | Except.error e => Except.error e
  | Except.ok c4 =>
    Except.ok (freqCharts freq_df ++ c4 ++ fig5Charts thresh_df
      ++ fig6Charts baseline_df)

/-- The data-model invariant on a stored run record: every field numeric, the
delivery ratio within [0,1], received at most transmitted, and every packet
count non-negative. -/
def recordValid : RawRecord → Bool
  | { pdr := PyVal.num p, tx := PyVal.num t, rx := PyVal.num x,
      delay_ms := PyVal.num _, ctrl_tx := PyVal.num ct,
      ctrl_rx := PyVal.num cr, ctrl_dropped := PyVal.num cd } =>
    decide (0 ≤ p) && decide (p ≤ 1) && decide (x ≤ t) && decide (0 ≤ t) &&
    decide (0 ≤ x) && decide (0 ≤ ct) && decide (0 ≤ cr) && decide (0 ≤ cd)
  | _ => false

/-- Whether every data row of a frame has exactly one cell per header column
(the rectangular shape pandas produces for a well-formed CSV). -/
def csvRect (c : Csv) : Bool :=
  c.rows.all (fun row => row.length == c.header.length)

/-- Rectangularity of whichever of the three artifacts are present. -/
def artifactsRect (a : Artifacts) : Bool :=
  (match a.pdrFile with | none => true | some c => csvRect c)
  && (match a.delayFile with | none => true | some c => csvRect c)
  && (match a.overheadFile with | none => true | some c => csvRect c)

/-- The failure condition of one artifact as the parse step detects it: the
file is missing, it has no header, a required column is absent from the
header, or there is no data row. -/
def artifactBad (f : Option Csv) (cols : List String) : Bool :=
  match f with
  | none => true
  | some c =>
    c.header.isEmpty || cols.any (fun col =>
      (c.header.findIdx? (fun h => h == col)).isNone) || c.rows.isEmpty

/-- A well-formed delivery-ratio artifact fixture: 500 transmitted, 500
received, ratio 1. -/
def goodPdrCsv : Csv :=
  { header := ["tx", "rx", "pdr"],
    rows := [[PyVal.num 500, PyVal.num 500, PyVal.num 1]] }

/-- A well-formed delay artifact fixture: average delay 2 seconds. -/
def goodDelayCsv : Csv :=
  { header := ["avg_delay_s"], rows := [[PyVal.num 2]] }

/-- A well-formed control-overhead artifact fixture. -/
def goodOverheadCsv : Csv :=
  { header := ["control_tx", "control_rx", "control_dropped"],
    rows := [[PyVal.num 300, PyVal.num 280, PyVal.num 20]] }

/-- A complete well-formed artifact set. -/
def goodArtifacts : Artifacts :=
  { pdrFile := some goodPdrCsv, delayFile := some goodDelayCsv,
    overheadFile := some goodOverheadCsv }

/-- The record parseResults extracts from goodArtifacts (the delay field is
written as the unevaluated product the parser builds). -/
def goodRecord : RawRecord :=
  { pdr := PyVal.num 1, tx := PyVal.num 500, rx := PyVal.num 500,
    delay_ms := PyVal.num (2 * (1000 : ℕ)), ctrl_tx := PyVal.num 300,
    ctrl_rx := PyVal.num 280, ctrl_dropped := PyVal.num 20 }

/-- An artifact set whose delivery-ratio file reports the out-of-range ratio 2
(more packets received than transmitted would allow). -/
def badArtifacts : Artifacts :=
  { pdrFile := some { header := ["tx", "rx", "pdr"],
                      rows := [[PyVal.num 500, PyVal.num 450, PyVal.num 2]] },
    delayFile := some goodDelayCsv, overheadFile := some goodOverheadCsv }

/-- An artifact set whose delivery-ratio file holds the non-numeric token oops
in the required pdr column. -/
def strPdrArtifacts : Artifacts :=
  { pdrFile := some { header := ["tx", "rx", "pdr"],
                      rows := [[PyVal.num 500, PyVal.num 450,
                                PyVal.str "oops"]] },
    delayFile := some goodDelayCsv, overheadFile := some goodOverheadCsv }

/-- The record parseResults extracts from strPdrArtifacts: the non-numeric pdr
cell is passed through untouched. -/
def strPdrRecord : RawRecord :=
  { pdr := PyVal.str "oops", tx := PyVal.num 500, rx := PyVal.num 450,
    delay_ms := PyVal.num (2 * (1000 : ℕ)), ctrl_tx := PyVal.num 300,
    ctrl_rx := PyVal.num 280, ctrl_dropped := PyVal.num 20 }

/-- An artifact set whose delivery-ratio file is missing entirely. -/
def missingPdrArtifacts : Artifacts :=
  { pdrFile := none, delayFile := some goodDelayCsv,
    overheadFile := some goodOverheadCsv }

/-- A numeric record fixture with the given delivery ratio and dropped-control
count. -/
def numRec (p cd : ℚ) : NumRecord :=
  { pdr := p, tx := 400, rx := 300, delay_ms := 50, ctrl_tx := 100,
    ctrl_rx := 90, ctrl_dropped := cd }

/-- The baseline fixture of the end-to-end example: attack-only pdr 0.75 with
no drops, mitigated pdr 0.91 with 340 drops. -/
def basePosFixture : List (BaseRec NumRecord) :=
  [{ vals := numRec (3 / 4) 0, scenario := Label.InsecRPL },
   { vals := numRec (91 / 100) 340, scenario := Label.SecRPL }]

/-- A baseline fixture in which mitigation performed worse than the plain
attack: attack-only pdr 0.9, mitigated pdr 0.75. -/
def baseNegFixture : List (BaseRec NumRecord) :=
  [{ vals := numRec (9 / 10) 0, scenario := Label.InsecRPL },
   { vals := numRec (3 / 4) 120, scenario := Label.SecRPL }]

/-- A non-empty baseline frame holding only an attack-with-mitigation row (the
no-attack and attack-only runs failed). -/
def baselineOnlySec : List (BaseRec NumRecord) :=
  [{ vals := numRec (3 / 4) 0, scenario := Label.SecRPL }]

/-- A one-row threshold frame. -/
def threshOneRow : List (ThreshRec NumRecord) :=
  [{ vals := numRec (9 / 10) 0, scenario := Label.SecRPL, threshold := 20 }]

/-- A scenario-runner oracle that fails exactly at threshold 30. -/
def failAt30 : SimArgs → Option Unit :=
  fun a => if a.threshold == 30 then none else some Unit.unit

/-- A scenario-runner oracle that succeeds on every combination. -/
def alwaysUnit : SimArgs → Option Unit :=
  fun _ => some Unit.unit

/-- An external world in which every invocation exits cleanly and writes the
well-formed artifact set. -/
def goodEnv : List Arg → Option Artifacts :=
  fun _ => some goodArtifacts

/-- An external world in which every invocation exits cleanly but writes the
out-of-range artifact set. -/
def badEnv : List Arg → Option Artifacts :=
  fun _ => some badArtifacts

/-- C1: when the scenario run fails for exactly the threshold-30 combination of
the threshold sweep, the resulting dataset has exactly 4 records, for
thresholds 5, 10, 20 and 50 in that order; the collector is a total function
(nothing is raised) that proceeds past the failed combination, which
contributes no record. -/
theorem threshold_sweep_partial_failure {ρ : Type} (sim : SimArgs → Option ρ)
    (h5 : (sim { attack := true, attacker_pps := 800, threshold := 5 }).isSome = true)
    (h10 : (sim { attack := true, attacker_pps := 800, threshold := 10 }).isSome = true)
    (h20 : (sim { attack := true, attacker_pps := 800, threshold := 20 }).isSome = true)
    (h50 : (sim { attack := true, attacker_pps := 800, threshold := 50 }).isSome = true)
    (h30 : sim { attack := true, attacker_pps := 800, threshold := 30 } = none) :
    (collect_threshold_data sim).length = 4 ∧
      (collect_threshold_data sim).map (fun r => r.threshold) = [5, 10, 20, 50] := by
  obtain ⟨r5, e5⟩ := Option.isSome_iff_exists.mp h5
  obtain ⟨r10, e10⟩ := Option.isSome_iff_exists.mp h10
  obtain ⟨r20, e20⟩ := Option.isSome_iff_exists.mp h20
  obtain ⟨r50, e50⟩ := Option.isSome_iff_exists.mp h50
  simp [collect_threshold_data, thresholds, threshStep, e5, e10, e20, e50, h30]

/-- Witness for C1: the oracle failing exactly at threshold 30 yields the
4-record dataset for thresholds 5, 10, 20, 50. -/
theorem threshold_sweep_partial_failure_witness :
    (collect_threshold_data failAt30).length = 4 ∧
      (collect_threshold_data failAt30).map (fun r => r.threshold) = [5, 10, 20, 50] :=
  threshold_sweep_partial_failure failAt30 (by decide) (by decide) (by decide)
    (by decide) (by decide)

/-- C2: when every run succeeds, the frequency sweep enumerates the rates 200,
400, 600, 800, 1000 in that fixed order, running attack-only (threshold
1000000000, the disabled value) and then attack-with-mitigation (threshold 20)
at each rate, and afterwards broadcasts the record of one no-attack run to
every one of the five rate values, for 15 records in total. -/
theorem frequency_sweep_shape {ρ : Type} (sim : SimArgs → Option ρ)
    (f : SimArgs → ρ) (h : ∀ a, sim a = some (f a)) :
    collect_attack_frequency_data sim =
      [{ vals := f { attack := true, attacker_pps := 200, threshold := 1000000000 },
         scenario := Label.InsecRPL, attack_pps := 200 },
       { vals := f { attack := true, attacker_pps := 200, threshold := 20 },
         scenario := Label.SecRPL, attack_pps := 200 },
       { vals := f { attack := true, attacker_pps := 400, threshold := 1000000000 },
         scenario := Label.InsecRPL, attack_pps := 400 },
       { vals := f { attack := true, attacker_pps := 400, threshold := 20 },
         scenario := Label.SecRPL, attack_pps := 400 },
       { vals := f { attack := true, attacker_pps := 600, threshold := 1000000000 },
         scenario := Label.InsecRPL, attack_pps := 600 },
       { vals := f { attack := true, attacker_pps := 600, threshold := 20 },
         scenario := Label.SecRPL, attack_pps := 600 },
       { vals := f { attack := true, attacker_pps := 800, threshold := 1000000000 },
         scenario := Label.InsecRPL, attack_pps := 800 },
       { vals := f { attack := true, attacker_pps := 800, threshold := 20 },
         scenario := Label.SecRPL, attack_pps := 800 },
       { vals := f { attack := true, attacker_pps := 1000, threshold := 1000000000 },
         scenario := Label.InsecRPL, attack_pps := 1000 },
       { vals := f { attack := true, attacker_pps := 1000, threshold := 20 },
         scenario := Label.SecRPL, attack_pps := 1000 },
       { vals := f { attack := false }, scenario := Label.RPL, attack_pps := 200 },
       { vals := f { attack := false }, scenario := Label.RPL, attack_pps := 400 },
       { vals := f { attack := false }, scenario := Label.RPL, attack_pps := 600 },
       { vals := f { attack := false }, scenario := Label.RPL, attack_pps := 800 },
       { vals := f { attack := false }, scenario := Label.RPL, attack_pps := 1000 }] ∧
      (collect_attack_frequency_data sim).length = 15 := by
  constructor
  · simp [collect_attack_frequency_data, frequencies, freqStep, h]
  · simp [collect_attack_frequency_data, frequencies, freqStep, h]

/-- Witness for C2: with the always-succeeding oracle the frequency dataset
has 15 records. -/
theorem frequency_sweep_shape_witness :
    (collect_attack_frequency_data alwaysUnit).length = 15 :=
  (frequency_sweep_shape alwaysUnit (fun _ => Unit.unit) (fun _ => rfl)).2

/-- C4: the baseline experiment is exactly the three combinations no-attack,
attack with the effectively disabled threshold 1000000000, and attack with
threshold 20, in that order, labelled RPL (baseline-no-attack), InsecRPL
(attack-only) and SecRPL (attack-with-mitigation); each successful run
contributes exactly one record with its label attached and a failed run
contributes none. -/
theorem baseline_three_combinations {ρ : Type} (sim : SimArgs → Option ρ) :
    collect_baseline_data sim =
      ([({ attack := false, attacker_pps := 800, threshold := 20, n_nodes := 25,
           window := 1, sim_time := 120 }, Label.RPL),
        ({ attack := true, attacker_pps := 800, threshold := 1000000000,
           n_nodes := 25, window := 1, sim_time := 120 }, Label.InsecRPL),
        ({ attack := true, attacker_pps := 800, threshold := 20, n_nodes := 25,
           window := 1, sim_time := 120 }, Label.SecRPL)] :
        List (SimArgs × Label)).filterMap (fun c =>
          (sim c.1).map (fun r => { vals := r, scenario := c.2 })) := by
  cases e1 : sim { attack := false } <;>
    cases e2 : sim { attack := true, threshold := 1000000000 } <;>
      cases e3 : sim { attack := true, threshold := 20 } <;>
        simp [collect_baseline_data, e1, e2, e3]

/-- C10: instrumented with the identity oracle, the threshold sweep shows every
combination fixing all parameters except the threshold (attack on, rate 800,
25 nodes, window 1, duration 120); the command built for such a combination
also carries the literals attackerPkt 120, area 60 and rateKbps 16; and the
attack-only runs of the baseline and frequency sweeps all use the literal
disabled threshold 1000000000. -/
theorem threshold_sweep_fixed_parameters :
    ((collect_threshold_data (fun a => some a)).map (fun r => r.vals) =
      [{ attack := true, attacker_pps := 800, threshold := 5, n_nodes := 25,
         window := 1, sim_time := 120 },
       { attack := true, attacker_pps := 800, threshold := 10, n_nodes := 25,
         window := 1, sim_time := 120 },
       { attack := true, attacker_pps := 800, threshold := 20, n_nodes := 25,
         window := 1, sim_time := 120 },
       { attack := true, attacker_pps := 800, threshold := 30, n_nodes := 25,
         window := 1, sim_time := 120 },
       { attack := true, attacker_pps := 800, threshold := 50, n_nodes := 25,
         window := 1, sim_time := 120 }]) ∧
    (∀ t : ℕ, buildCmd { attack := true, attacker_pps := 800, threshold := t } =
      [Arg.attackFlag true, Arg.attackerPps 800, Arg.attackerPkt 120,
       Arg.threshold t, Arg.windowSec 1, Arg.nNodes 25, Arg.area 60,
       Arg.rateKbps 16, Arg.simTime 120]) ∧
    ((collect_baseline_data (fun a => some a)).map
        (fun r => (r.scenario, r.vals.threshold)) =
      [(Label.RPL, 20), (Label.InsecRPL, 1000000000), (Label.SecRPL, 20)]) ∧
    ((collect_attack_frequency_data (fun a => some a)).map
        (fun r => (r.scenario, r.vals.threshold)) =
      [(Label.InsecRPL, 1000000000), (Label.SecRPL, 20),
       (Label.InsecRPL, 1000000000), (Label.SecRPL, 20),
       (Label.InsecRPL, 1000000000), (Label.SecRPL, 20),
       (Label.InsecRPL, 1000000000), (Label.SecRPL, 20),
       (Label.InsecRPL, 1000000000), (Label.SecRPL, 20),
       (Label.RPL, 20), (Label.RPL, 20), (Label.RPL, 20), (Label.RPL, 20),
       (Label.RPL, 20)]) :=
  ⟨rfl, fun _ => rfl, rfl, rfl⟩

/-- C5: a no-attack parameter set builds a command containing none of the four
attack-only parameters; only the attack flag itself, the node count, the area,
the traffic rate and the simulation duration are forwarded. -/
theorem no_attack_run_omits_attack_params (a : SimArgs) (h : a.attack = false) :
    buildCmd a = [Arg.attackFlag false, Arg.nNodes a.n_nodes, Arg.area 60,
      Arg.rateKbps 16, Arg.simTime a.sim_time] ∧
      ∀ arg ∈ buildCmd a, isAttackOnlyArg arg = false := by
  have e : buildCmd a = [Arg.attackFlag false, Arg.nNodes a.n_nodes, Arg.area 60,
      Arg.rateKbps 16, Arg.simTime a.sim_time] := by
    simp [buildCmd, h]
  refine ⟨e, ?_⟩
  rw [e]
  intro arg harg
  simp only [List.mem_cons, List.not_mem_nil, or_false] at harg
  rcases harg with rfl | rfl | rfl | rfl | rfl <;> rfl

/-- Witness for C5: the default no-attack parameter set forwards exactly the
attack flag, 25 nodes, area 60, rate 16 and duration 120. -/
theorem no_attack_run_omits_attack_params_witness :
    buildCmd { attack := false } = [Arg.attackFlag false, Arg.nNodes 25,
      Arg.area 60, Arg.rateKbps 16, Arg.simTime 120] ∧
      ∀ arg ∈ buildCmd { attack := false }, isAttackOnlyArg arg = false :=
  no_attack_run_omits_attack_params { attack := false } rfl

/-- Helper: a list has a match for a predicate exactly when find? returns
one. -/
theorem any_eq_find?_isSome {α : Type} (p : α → Bool) (l : List α) :
    l.any p = (l.find? p).isSome := by
  induction l with
  | nil => rfl
  | cons a l ih => by_cases h : p a <;> simp [List.find?, h, ih]

/-- C3: the summary is produced exactly when the baseline dataset holds both an
attack-only (InsecRPL) and a mitigated (SecRPL) record, with nothing raised
otherwise; when produced it uses
improvement = (mitigated pdr - attack pdr) / attack pdr * 100 and
degradation = (1 - attack pdr) * 100, both unclamped; the fixture pdrs 0.75
and 0.91 give improvement 64/3 (about 21.33 percent) and degradation 25
percent, and a mitigated pdr below the attack-only pdr yields a negative
improvement that is still produced. -/
theorem summary_presence_and_formulas :
    (∀ df : List (BaseRec NumRecord), (summarize df).isSome =
      (df.any (fun r => r.scenario == Label.InsecRPL) &&
        df.any (fun r => r.scenario == Label.SecRPL))) ∧
    (∀ (df : List (BaseRec NumRecord)) (insec sec : BaseRec NumRecord),
      df.find? (fun r => r.scenario == Label.InsecRPL) = some insec →
      df.find? (fun r => r.scenario == Label.SecRPL) = some sec →
      summarize df = some
        { improvement := (sec.vals.pdr - insec.vals.pdr) / insec.vals.pdr * 100,
          degradation := (1 - insec.vals.pdr) * 100,
          blocked := sec.vals.ctrl_dropped }) ∧
    summarize basePosFixture =
      some { improvement := 64 / 3, degradation := 25, blocked := 340 } ∧
    summarize baseNegFixture =
      some { improvement := -50 / 3, degradation := 10, blocked := 120 } ∧
    (-50 / 3 : ℚ) < 0 := by
  have hgen : ∀ (df : List (BaseRec NumRecord)) (insec sec : BaseRec NumRecord),
      df.find? (fun r => r.scenario == Label.InsecRPL) = some insec →
      df.find? (fun r => r.scenario == Label.SecRPL) = some sec →
      summarize df = some
        { improvement := (sec.vals.pdr - insec.vals.pdr) / insec.vals.pdr * 100,
          degradation := (1 - insec.vals.pdr) * 100,
          blocked := sec.vals.ctrl_dropped } := by
    intro df insec sec e1 e2
    have hne : df.isEmpty = false := by
      cases df with
      | nil => simp [List.find?] at e1
      | cons a l => rfl
    simp only [summarize, hne, Bool.false_eq_true, if_false, e1, e2]
  refine ⟨?_, hgen, ?_, ?_, by norm_num⟩
  · intro df
    by_cases hde : df.isEmpty = true
    · have : df = [] := List.isEmpty_iff.mp hde
      subst this; rfl
    · unfold summarize
      rw [if_neg hde]
      rw [any_eq_find?_isSome, any_eq_find?_isSome]
      cases df.find? (fun r => r.scenario == Label.InsecRPL) <;>
        cases df.find? (fun r => r.scenario == Label.SecRPL) <;> rfl
  · rw [hgen basePosFixture
        { vals := numRec (3 / 4) 0, scenario := Label.InsecRPL }
        { vals := numRec (91 / 100) 340, scenario := Label.SecRPL } rfl rfl]
    simp only [Option.some.injEq, Summary.mk.injEq, numRec]
    norm_num
  · rw [hgen baseNegFixture
        { vals := numRec (9 / 10) 0, scenario := Label.InsecRPL }
        { vals := numRec (3 / 4) 120, scenario := Label.SecRPL } rfl rfl]
    simp only [Option.some.injEq, Summary.mk.injEq, numRec]
    norm_num

/-- Helper: a successful parse stores exactly 1000 times the raw delay value
when that value is numeric. -/
theorem parse_delay_ms {a : Artifacts} {r : RawRecord} {s : ℚ}
    (hp : parseResults a = some r)
    (hd : rawDelayValue a = some (PyVal.num s)) :
    r.delay_ms = PyVal.num (s * 1000) := by
  simp only [parseResults, Option.bind_eq_some] at hp
  obtain ⟨pdrC, h1, delayC, h2, ovC, h3, p, f1, t, f2, x, f3, d, f4, ct, f5,
    cr, f6, cd, f7, hr⟩ := hp
  simp only [rawDelayValue, h2] at hd
  rw [f4] at hd
  obtain rfl : d = PyVal.num s := Option.some.inj hd
  obtain rfl : _ = r := Option.some.inj hr
  rfl

/-- C6: for every successful parse, the stored delay equals the raw delay
artifact value in seconds times exactly 1000, and across any two successful
parses the conversion is monotonic. -/
theorem delay_unit_conversion (a b : Artifacts) (r rb : RawRecord) (s sb : ℚ)
    (hp : parseResults a = some r) (hd : rawDelayValue a = some (PyVal.num s))
    (hpb : parseResults b = some rb)
    (hdb : rawDelayValue b = some (PyVal.num sb)) :
    r.delay_ms = PyVal.num (s * 1000) ∧
      (s ≤ sb → rb.delay_ms = PyVal.num (sb * 1000) ∧ s * 1000 ≤ sb * 1000) := by
  refine ⟨parse_delay_ms hp hd, fun hle => ⟨parse_delay_ms hpb hdb, ?_⟩⟩
  nlinarith

/-- Witness for C6: the well-formed fixture with a 2-second average delay
parses to a record holding 2000 milliseconds. -/
theorem delay_unit_conversion_witness :
    parseResults goodArtifacts = some goodRecord ∧
      rawDelayValue goodArtifacts = some (PyVal.num 2) ∧
      goodRecord.delay_ms = PyVal.num 2000 := by
  refine ⟨rfl, rfl, ?_⟩
  have h := (delay_unit_conversion goodArtifacts goodArtifacts goodRecord
    goodRecord 2 2 rfl rfl rfl rfl).1
  exact h.trans (congrArg PyVal.num (by norm_num))

/-- Helper: a successful column read implies the column is in the header and
the frame has a data row. -/
theorem firstVal_some_cond {c : Csv} {col : String} {v : PyVal}
    (h : firstVal c col = some v) :
    (c.header.findIdx? (fun s => s == col)).isNone = false ∧
      c.rows.isEmpty = false := by
  unfold firstVal at h
  cases hi : c.header.findIdx? (fun s => s == col) with
  | none => rw [hi] at h; exact absurd h (by simp)
  | some i =>
    rw [hi] at h
    refine ⟨rfl, ?_⟩
    cases hr : c.rows with
    | nil => rw [hr] at h; exact absurd h (by simp)
    | cons row rest => rfl

/-- Helper: what artifactBad being false says about a present file. -/
theorem artifactBad_some_false {c : Csv} {cols : List String}
    (h : artifactBad (some c) cols = false) :
    c.header.isEmpty = false ∧
      (∀ col ∈ cols, (c.header.findIdx? (fun s => s == col)).isNone = false) ∧
      c.rows.isEmpty = false := by
  simp only [artifactBad, Bool.or_eq_false_iff] at h
  obtain ⟨⟨h1, h2⟩, h3⟩ := h
  refine ⟨h1, ?_, h3⟩
  intro col hcol
  by_contra hcn
  have hx : (cols.any (fun col =>
      (c.header.findIdx? (fun s => s == col)).isNone)) = true := by
    refine List.any_eq_true.mpr ⟨col, hcol, ?_⟩
    cases hy : (c.header.findIdx? (fun s => s == col)).isNone with
    | false => exact absurd hy hcn
    | true => rfl
  rw [hx] at h2
  exact absurd h2 (by simp)

/-- Helper: a successful read_csv implies the file was present with a
non-empty header and is returned unchanged. -/
theorem readCsv_some {f : Option Csv} {c : Csv} (h : readCsv f = some c) :
    f = some c ∧ c.header.isEmpty = false := by
  cases f with
  | none => simp [readCsv] at h
  | some c2 =>
    by_cases he : c2.header.isEmpty = true
    · simp [readCsv, he] at h
    · have h2 : some c2 = some c := by simpa [readCsv, he] using h
      obtain rfl := Option.some.inj h2
      exact ⟨rfl, by simpa using he⟩

/-- Helper: on a rectangular frame with the column present and a data row, the
column read succeeds. -/
theorem firstVal_isSome {c : Csv} {col : String}
    (hrect : csvRect c = true)
    (hcol : (c.header.findIdx? (fun s => s == col)).isNone = false)
    (hrows : c.rows.isEmpty = false) :
    (firstVal c col).isSome = true := by
  cases hi : c.header.findIdx? (fun s => s == col) with
  | none => rw [hi] at hcol; simp at hcol
  | some i =>
    cases hr : c.rows with
    | nil => rw [hr] at hrows; simp at hrows
    | cons row rest =>
      have hlen : i < c.header.length :=
        (List.findIdx?_eq_some_iff_findIdx_eq.mp hi).1
      have hrl : row.length = c.header.length := by
        simp only [csvRect] at hrect
        have hmem : row ∈ c.rows := by rw [hr]; exact List.mem_cons_self _ _
        simpa using List.all_eq_true.mp hrect row hmem
      have hfv : firstVal c col = row[i]? := by
        unfold firstVal
        rw [hi, hr]
        rfl
      rw [hfv]
      cases hg : row[i]? with
      | some v => rfl
      | none =>
        rw [List.getElem?_eq_none_iff] at hg
        omega

/-- Helper: a successful parse implies none of the three artifacts is bad. -/
theorem parse_good_of_some {a : Artifacts} {r : RawRecord}
    (hp : parseResults a = some r) :
    artifactBad a.pdrFile ["pdr", "tx", "rx"] = false ∧
      artifactBad a.delayFile ["avg_delay_s"] = false ∧
      artifactBad a.overheadFile
        ["control_tx", "control_rx", "control_dropped"] = false := by
  simp only [parseResults, Option.bind_eq_some] at hp
  obtain ⟨pdrC, h1, delayC, h2, ovC, h3, p, f1, t, f2, x, f3, d, f4, ct, f5,
    cr, f6, cd, f7, hr⟩ := hp
  obtain ⟨e1, hh1⟩ := readCsv_some h1
  obtain ⟨e2, hh2⟩ := readCsv_some h2
  obtain ⟨e3, hh3⟩ := readCsv_some h3
  obtain ⟨c1p, r1⟩ := firstVal_some_cond f1
  obtain ⟨c1t, -⟩ := firstVal_some_cond f2
  obtain ⟨c1x, -⟩ := firstVal_some_cond f3
  obtain ⟨c2d, r2⟩ := firstVal_some_cond f4
  obtain ⟨c3a, r3⟩ := firstVal_some_cond f5
  obtain ⟨c3b, -⟩ := firstVal_some_cond f6
  obtain ⟨c3c, -⟩ := firstVal_some_cond f7
  rw [e1, e2, e3]
  simp [artifactBad, hh1, hh2, hh3, r1, r2, r3, c1p, c1t, c1x, c2d, c3a,
    c3b, c3c]

/-- Helper: with rectangular artifacts none of which is bad, the parse
succeeds. -/
theorem parse_some_of_good {a : Artifacts}
    (hrect : artifactsRect a = true)
    (h1 : artifactBad a.pdrFile ["pdr", "tx", "rx"] = false)
    (h2 : artifactBad a.delayFile ["avg_delay_s"] = false)
    (h3 : artifactBad a.overheadFile
      ["control_tx", "control_rx", "control_dropped"] = false) :
    (parseResults a).isSome = true := by
  cases e1 : a.pdrFile with
  | none => rw [e1] at h1; simp [artifactBad] at h1
  | some pdrC =>
  cases e2 : a.delayFile with
  | none => rw [e2] at h2; simp [artifactBad] at h2
  | some delayC =>
  cases e3 : a.overheadFile with
  | none => rw [e3] at h3; simp [artifactBad] at h3
  | some ovC =>
  rw [e1] at h1; rw [e2] at h2; rw [e3] at h3
  obtain ⟨hh1, hcols1, hrows1⟩ := artifactBad_some_false h1
  obtain ⟨hh2, hcols2, hrows2⟩ := artifactBad_some_false h2
  obtain ⟨hh3, hcols3, hrows3⟩ := artifactBad_some_false h3
  have hc1p := hcols1 "pdr" (by simp)
  have hc1t := hcols1 "tx" (by simp)
  have hc1x := hcols1 "rx" (by simp)
  have hc2d := hcols2 "avg_delay_s" (by simp)
  have hc3a := hcols3 "control_tx" (by simp)
  have hc3b := hcols3 "control_rx" (by simp)
  have hc3c := hcols3 "control_dropped" (by simp)
  simp only [artifactsRect, e1, e2, e3, Bool.and_eq_true] at hrect
  obtain ⟨⟨rect1, rect2⟩, rect3⟩ := hrect
  obtain ⟨v1, fv1⟩ :=
    Option.isSome_iff_exists.mp (firstVal_isSome rect1 hc1p hrows1)
  obtain ⟨v2, fv2⟩ :=
    Option.isSome_iff_exists.mp (firstVal_isSome rect1 hc1t hrows1)
  obtain ⟨v3, fv3⟩ :=
    Option.isSome_iff_exists.mp (firstVal_isSome rect1 hc1x hrows1)
  obtain ⟨v4, fv4⟩ :=
    Option.isSome_iff_exists.mp (firstVal_isSome rect2 hc2d hrows2)
  obtain ⟨v5, fv5⟩ :=
    Option.isSome_iff_exists.mp (firstVal_isSome rect3 hc3a hrows3)
  obtain ⟨v6, fv6⟩ :=
    Option.isSome_iff_exists.mp (firstVal_isSome rect3 hc3b hrows3)
  obtain ⟨v7, fv7⟩ :=
    Option.isSome_iff_exists.mp (firstVal_isSome rect3 hc3c hrows3)
  have hread1 : readCsv a.pdrFile = some pdrC := by
    rw [e1]; simp [readCsv, hh1]
  have hread2 : readCsv a.delayFile = some delayC := by
    rw [e2]; simp [readCsv, hh2]
  have hread3 : readCsv a.overheadFile = some ovC := by
    rw [e3]; simp [readCsv, hh3]
  simp [parseResults, hread1, hread2, hread3, fv1, fv2, fv3, fv4, fv5,
    fv6, fv7]

/-- C7 amended: on rectangular artifacts the parse fails exactly when an
artifact is missing, has no header, lacks a required column, or has no data
row; a non-numeric value in a required column is not detected.  Both the
missing and the malformed case collapse to the same absent record. -/
theorem parse_failure_characterization (a : Artifacts)
    (hrect : artifactsRect a = true) :
    parseResults a = none ↔
      (artifactBad a.pdrFile ["pdr", "tx", "rx"]
        || artifactBad a.delayFile ["avg_delay_s"]
        || artifactBad a.overheadFile
            ["control_tx", "control_rx", "control_dropped"]) = true := by
  constructor
  · intro hnone
    cases hx : (artifactBad a.pdrFile ["pdr", "tx", "rx"]
        || artifactBad a.delayFile ["avg_delay_s"]
        || artifactBad a.overheadFile
            ["control_tx", "control_rx", "control_dropped"]) with
    | true => rfl
    | false =>
      exfalso
      simp only [Bool.or_eq_false_iff] at hx
      obtain ⟨⟨b1, b2⟩, b3⟩ := hx
      have := parse_some_of_good hrect b1 b2 b3
      rw [hnone] at this
      simp at this
  · intro hbad
    cases hp : parseResults a with
    | none => rfl
    | some r =>
      exfalso
      obtain ⟨g1, g2, g3⟩ := parse_good_of_some hp
      rw [g1, g2, g3] at hbad
      simp at hbad

/-- Counterexample to C7 as stated: an artifact set whose required pdr column
holds the non-numeric token oops parses successfully, the string stored in the
record verbatim, instead of failing. -/
theorem parse_nonnumeric_value_succeeds :
    parseResults strPdrArtifacts = some strPdrRecord ∧
      strPdrRecord.pdr = PyVal.str "oops" :=
  ⟨rfl, rfl⟩

/-- Witness for C7 amended: the artifact set with a missing delivery-ratio
file fails to parse, and that artifact is flagged bad. -/
theorem parse_failure_characterization_witness :
    parseResults missingPdrArtifacts = none ∧
      artifactBad missingPdrArtifacts.pdrFile ["pdr", "tx", "rx"] = true := by
  refine ⟨?_, rfl⟩
  exact (parse_failure_characterization missingPdrArtifacts rfl).mpr rfl

/-- Helper: a foldl whose step preserves a Boolean list invariant preserves it
over the whole fold. -/
theorem foldl_all_preserved {α β : Type} (P : α → Bool)
    (f : List α → β → List α)
    (hstep : ∀ acc b, acc.all P = true → (f acc b).all P = true) :
    ∀ (l : List β) (acc : List α), acc.all P = true →
      (l.foldl f acc).all P = true := by
  intro l
  induction l with
  | nil => intro acc h; simpa using h
  | cons b bs ih => intro acc h; exact ih _ (hstep acc b h)

/-- C8 amended: the collectors validate nothing but do preserve validity: when
the scenario-runner oracle only returns records satisfying the data-model
invariant (all fields numeric, delivery ratio in [0,1], received at most
transmitted, counts non-negative), every record stored in each of the three
datasets satisfies it. -/
theorem datasets_preserve_record_invariant (sim : SimArgs → Option RawRecord)
    (h : ∀ a r, sim a = some r → recordValid r = true) :
    ((collect_baseline_data sim).all (fun rec => recordValid rec.vals) = true) ∧
      ((collect_attack_frequency_data sim).all
        (fun rec => recordValid rec.vals) = true) ∧
      ((collect_threshold_data sim).all
        (fun rec => recordValid rec.vals) = true) := by
  refine ⟨?_, ?_, ?_⟩
  · simp only [collect_baseline_data, List.all_append, Bool.and_eq_true]
    refine ⟨⟨?_, ?_⟩, ?_⟩
    · cases e : sim { attack := false } with
      | none => rfl
      | some r => simpa using h _ r e
    · cases e : sim { attack := true, threshold := 1000000000 } with
      | none => rfl
      | some r => simpa using h _ r e
    · cases e : sim { attack := true, threshold := 20 } with
      | none => rfl
      | some r => simpa using h _ r e
  · have hloop := foldl_all_preserved
      (fun (rec : FreqRec RawRecord) => recordValid rec.vals) (freqStep sim)
      (by
        intro acc pps hacc
        unfold freqStep
        cases e1 : sim { attack := true, attacker_pps := pps, threshold := 1000000000 } with
        | none =>
          cases e2 : sim { attack := true, attacker_pps := pps, threshold := 20 } with
          | none => simpa using hacc
          | some r2 =>
            simp only [List.all_append, Bool.and_eq_true]
            exact ⟨hacc, by simpa using h _ r2 e2⟩
        | some r1 =>
          cases e2 : sim { attack := true, attacker_pps := pps, threshold := 20 } with
          | none =>
            simp only [List.all_append, Bool.and_eq_true]
            exact ⟨hacc, by simpa using h _ r1 e1⟩
          | some r2 =>
            simp only [List.all_append, Bool.and_eq_true]
            exact ⟨⟨hacc, by simpa using h _ r1 e1⟩,
              by simpa using h _ r2 e2⟩)
      frequencies [] rfl
    unfold collect_attack_frequency_data
    cases e : sim { attack := false } with
    | none => simpa using hloop
    | some r =>
      simp only [List.all_append, Bool.and_eq_true]
      refine ⟨hloop, ?_⟩
      have hv : recordValid r = true := h _ r e
      simp [List.all_map, hv]
  · unfold collect_threshold_data
    refine foldl_all_preserved
      (fun (rec : ThreshRec RawRecord) => recordValid rec.vals)
      (threshStep sim) ?_ thresholds [] rfl
    intro acc t hacc
    unfold threshStep
    cases e : sim { attack := true, attacker_pps := 800, threshold := t } with
    | none => exact hacc
    | some r =>
      simp only [List.all_append, Bool.and_eq_true]
      exact ⟨hacc, by simpa using h _ r e⟩

/-- Witness for C8 amended: with an external world always writing the
well-formed artifact set, every record of all three datasets is valid. -/
theorem datasets_preserve_record_invariant_witness :
    ((collect_baseline_data (run_simulation goodEnv)).all
        (fun rec => recordValid rec.vals) = true) ∧
      ((collect_attack_frequency_data (run_simulation goodEnv)).all
        (fun rec => recordValid rec.vals) = true) ∧
      ((collect_threshold_data (run_simulation goodEnv)).all
        (fun rec => recordValid rec.vals) = true) := by
  refine datasets_preserve_record_invariant (run_simulation goodEnv) ?_
  intro a r hr
  have e : run_simulation goodEnv a = some goodRecord := rfl
  rw [e] at hr
  obtain rfl := Option.some.inj hr
  rfl

/-- Counterexample to C8 as stated: an external world whose delivery-ratio
artifact reports the ratio 2 leads to stored baseline records with pdr 2,
which the pipeline accepts unchecked. -/
theorem dataset_invariant_counterexample :
    (collect_baseline_data (run_simulation badEnv)).map
        (fun rec => rec.vals.pdr) =
      [PyVal.num 2, PyVal.num 2, PyVal.num 2] ∧
      (collect_baseline_data (run_simulation badEnv)).all
        (fun rec => recordValid rec.vals) = false :=
  ⟨rfl, rfl⟩

/-- C9 at its failing input: handed a non-empty baseline frame that lacks the
RPL (no-attack) label together with a non-empty threshold frame, the chart
code raises IndexError while reading the figure-4 baseline reference line
instead of silently omitting it. -/
theorem chart_missing_baseline_label_raises :
    chartsOf baselineOnlySec [] threshOneRow = Except.error "IndexError" := rfl
